import Mathlib

/-!
Shallow embedding of `glob/cnr_utils.py` (ComfyUI-Manager registry client).

Mapping conventions:
* A Python JSON dict is modelled as a structure whose fields are `Option`s
  (a `none` field means the key is absent from the dict).
* A raised Python exception is modelled as `Except.error`; a function that
  cannot raise returns a plain value.
* `fetch_page` (one HTTP GET of one registry page) is an external effect; it
  is passed in as an oracle `fetchPage : Nat → Option PageJson`, where `none`
  is the failure sentinel the real function returns on any non-200 status or
  transport/parse exception.
* To reason about which network requests happen, `fetch_all` also returns the
  list of page numbers it passed to the oracle, in request order.
* The module-level dicts `memory_cache` / `cnr_info_cache` are threaded as
  explicit state (association lists; insertion prepends, lookup takes the
  most recent binding, matching dict overwrite semantics).
-/

namespace CnrUtils

def base_url : String := "https://api.comfy.org"

/-- The value of a `latest_version` field of a package summary. -/
structure LatestVersion where
  version : String
deriving DecidableEq, Repr

/-- One package summary from a registry page; only the `latest_version` key is
relevant to the logic under study, the rest of the dict is kept opaque. -/
structure Node where
  name : String
  latest_version : Option LatestVersion
deriving DecidableEq, Repr

/-- The parsed JSON body of one registry page, restricted to the keys the code
reads (`totalPages`, `nodes`); an `Option` field models a possibly-absent key. -/
structure PageJson where
  totalPages : Option Nat
  nodes : Option (List Node)
deriving DecidableEq, Repr

/-- Python truthiness of the page dict (restricted to its modelled keys): a
dict is falsy iff it is empty. -/
def pageTruthy (p : PageJson) : Bool :=
  !(p.totalPages.isNone && p.nodes.isNone)

/-- Entries contributed by one of the pages 2..totalPages: the code appends
`result['nodes']` when `result and 'nodes' in result`, else nothing. -/
def pageContrib (result : Option PageJson) : List Node :=
  match result with
  | some r =>
    match r.nodes with
    | some ns => ns
    | none => []
  | none => []

/-- Post-merge normalization of one entry: `if 'latest_version' not in node:
node['latest_version'] = dict(version='nightly')`. -/
def normalizeNode (node : Node) : Node :=
  if node.latest_version.isNone then
    { node with latest_version := some { version := "nightly" } }
  else node

/-- The dict `{'nodes': nodes}` returned by `fetch_all`. -/
structure FetchResult where
  nodes : List Node
deriving DecidableEq, Repr

/-- `fetch_all(comfyui_ver, form_factor)`: fetch page 1, raise if it is the
failure sentinel (or a falsy dict), read `totalPages` and `nodes` (a missing
key raises `KeyError`), fetch pages 2..totalPages appending each page's
entries in ascending page order, then normalize `latest_version`.
The second component is the list of page numbers requested, in order. -/
def fetch_all (fetchPage : Nat → Option PageJson) :
    Except String FetchResult × List Nat :=
  match fetchPage 1 with
  | none => (Except.error "Failed to fetch first page", [1])
  | some first_page =>
    if !pageTruthy first_page then
      (Except.error "Failed to fetch first page", [1])
    else
      match first_page.totalPages with
      | none => (Except.error "KeyError: totalPages", [1])
      | some total_pages =>
        match first_page.nodes with
        | none => (Except.error "KeyError: nodes", [1])
        | some first_nodes =>
          let restPages :=
            if total_pages > 1 then List.range' 2 (total_pages - 1) else []
          let rest := (restPages.map fun page => pageContrib (fetchPage page)).flatten
          let nodes := (first_nodes ++ rest).map normalizeNode
          (Except.ok { nodes := nodes }, 1 :: restPages)

/-- Lookup in an association-list model of a Python dict (most recent binding
wins, matching dict overwrite). -/
def lookupAssoc {α : Type} (m : List (String × α)) (k : String) : Option α :=
  match m with
  | [] => none
  | (k', v) :: rest => if k' = k then some v else lookupAssoc rest k

/-- Insertion into the association-list model of a Python dict. -/
def insertAssoc {α : Type} (m : List (String × α)) (k : String) (v : α) :
    List (String × α) :=
  (k, v) :: m

/-- Result value of `get_cnr_data`: either the list stored under the `nodes`
key (every success branch returns `...['nodes']`) or the empty dict literal
`{}` returned on the degraded and failure branches. -/
inductive CnrResult where
  | nodesList (ns : List Node)
  | emptyDict
deriving DecidableEq, Repr

/-- The mutable state touched by `get_cnr_data`: the module-level
`memory_cache`, restricted to the node-listing URI key, and the persisted
on-disk tier. The persisted tier lives in the external collaborator
`manager_util`; modelled from the spec: `exists(key)` / `load(key)` /
`save(key, value)`, keyed by the full request URI. -/
structure CacheSt where
  memory_cache : List (String × FetchResult)
  disk_cache : List (String × FetchResult)
deriving DecidableEq, Repr

/-- The URI `f"\x7bbase_url\x7d/nodes"` computed by `get_cnr_data`, the key of
both cache tiers for the primary listing. -/
def nodesUri : String := base_url ++ "/nodes"

/-- The fall-through tail of `get_cnr_data`: `try:` fetch via `fetch_all`,
`save_to_cache(uri, json_obj)`, `memory_cache[uri] = json_obj`, return
`json_obj['nodes']`; `except:` log and return `{}`. The third component is
the list of pages requested. -/
def liveFetch (fetchPage : Nat → Option PageJson) (st : CacheSt) (uri : String) :
    CnrResult × CacheSt × List Nat :=
  match fetch_all fetchPage with
  | (Except.ok json_obj, log) =>
    (CnrResult.nodesList json_obj.nodes,
     { memory_cache := insertAssoc st.memory_cache uri json_obj,
       disk_cache := insertAssoc st.disk_cache uri json_obj }, log)
  | (Except.error _, log) => (CnrResult.emptyDict, st, log)

/-- `get_cnr_data(cache_mode, dont_wait)`: with `cache_mode` check the
in-memory tier, then the persisted tier (populating memory on a disk hit),
then — with `dont_wait` — return `{}` without fetching; otherwise fall
through to the live fetch. The third component is the list of page numbers
requested over the network, in order. -/
def get_cnr_data (fetchPage : Nat → Option PageJson) (st : CacheSt)
    (cache_mode dont_wait : Bool) : CnrResult × CacheSt × List Nat :=
  let uri := nodesUri
  if cache_mode then
    match lookupAssoc st.memory_cache uri with
    | some data => (CnrResult.nodesList data.nodes, st, [])
    | none =>
      match lookupAssoc st.disk_cache uri with
      | some data =>
        (CnrResult.nodesList data.nodes,
         { st with memory_cache := insertAssoc st.memory_cache uri data }, [])
      | none =>
        if dont_wait then (CnrResult.emptyDict, st, [])
        else liveFetch fetchPage st uri
  else liveFetch fetchPage st uri

/-- The `NodeVersion` dataclass. -/
structure NodeVersion where
  changelog : String
  dependencies : List String
  deprecated : Bool
  id : String
  version : String
  download_url : String
deriving DecidableEq, Repr

/-- The `node_version` part of an API response, as a dict with possibly
absent keys. -/
structure ApiNodeVersion where
  changelog : Option String
  dependencies : Option (List String)
  deprecated : Option Bool
  id : Option String
  version : Option String
  downloadUrl : Option String
deriving DecidableEq, Repr

/-- `map_node_version(api_node_version)`: optional keys are read with
`.get(key, default)`; `id` and `version` are read with `[...]`, so a missing
one raises `KeyError` (`id` is evaluated before `version`). -/
def map_node_version (api_node_version : ApiNodeVersion) :
    Except String NodeVersion :=
  match api_node_version.id with
  | none => Except.error "KeyError: id"
  | some id =>
    match api_node_version.version with
    | none => Except.error "KeyError: version"
    | some version =>
      Except.ok
        { changelog := api_node_version.changelog.getD ""
          dependencies := api_node_version.dependencies.getD []
          deprecated := api_node_version.deprecated.getD false
          id := id
          version := version
          download_url := api_node_version.downloadUrl.getD "" }

/-- Outcome of `requests.get(url, timeout=10)` followed by `.json()`: either
a response carrying a status code and a body that parses to `β` or fails to
parse (`Except.error`), or a transport exception raised by `requests.get`
itself. In `install_node` and `all_versions_of_node` these calls are not
wrapped in `try`/`except`. -/
inductive HttpResp (β : Type) where
  | resp (status : Nat) (body : Except String β)
  | exn (msg : String)
deriving Repr

/-- Python `version or 'latest'` in the cache-key f-string: both `None` and
the empty string are falsy. -/
def pyOrLatest (version : Option String) : String :=
  match version with
  | none => "latest"
  | some v => if v = "" then "latest" else v

/-- The URL `install_node` requests: `/nodes/<id>/install`, with a
`?version=` query when a version was given. -/
def installUrl (node_id : String) (version : Option String) : String :=
  match version with
  | none => base_url ++ "/nodes/" ++ node_id ++ "/install"
  | some v => base_url ++ "/nodes/" ++ node_id ++ "/install?version=" ++ v

/-- `install_node(node_id, version=None)`: consult `memory_cache` by the
composite key; on a miss issue the GET (uncaught, so a transport exception
propagates), on 200 parse (`.json()` uncaught) and map (`KeyError` uncaught),
memoize and return the record; on any non-200 status return `None`. -/
def install_node (http : String → HttpResp ApiNodeVersion)
    (mem : List (String × NodeVersion)) (node_id : String)
    (version : Option String) :
    Except String (Option NodeVersion × List (String × NodeVersion)) :=
  let cache_key := "install_" ++ node_id ++ "_" ++ pyOrLatest version
  match lookupAssoc mem cache_key with
  | some r => Except.ok (some r, mem)
  | none =>
    let url := installUrl node_id version
    match http url with
    | HttpResp.exn msg => Except.error msg
    | HttpResp.resp status body =>
      if status = 200 then
        match body with
        | Except.error msg => Except.error msg
        | Except.ok data =>
          match map_node_version data with
          | Except.error msg => Except.error msg
          | Except.ok result =>
            Except.ok (some result, insertAssoc mem cache_key result)
      else Except.ok (none, mem)

/-- The raw `versions` payload is passed through unmodified; its content is
irrelevant here, so it is kept opaque. -/
abbrev VersionsPayload := List String

/-- The URL `all_versions_of_node` requests. -/
def versionsUrl (node_id : String) : String :=
  base_url ++ "/nodes/" ++ node_id ++
    "/versions?statuses=NodeVersionStatusActive&statuses=NodeVersionStatusPending"

/-- `all_versions_of_node(node_id)`: consult `memory_cache` by the composite
key; on a miss issue the GET (uncaught), on 200 memoize and return the raw
payload; on any non-200 status return `None` without memoizing. -/
def all_versions_of_node (http : String → HttpResp VersionsPayload)
    (mem : List (String × VersionsPayload)) (node_id : String) :
    Except String (Option VersionsPayload × List (String × VersionsPayload)) :=
  let cache_key := "versions_" ++ node_id
  match lookupAssoc mem cache_key with
  | some r => Except.ok (some r, mem)
  | none =>
    let url := versionsUrl node_id
    match http url with
    | HttpResp.exn msg => Except.error msg
    | HttpResp.resp status body =>
      if status = 200 then
        match body with
        | Except.error msg => Except.error msg
        | Except.ok data => Except.ok (some data, insertAssoc mem cache_key data)
      else Except.ok (none, mem)

/-- The `project` table of a parsed `pyproject.toml`, restricted to the keys
`read_cnr_info` reads (`name`, `version`, `urls.Repository`). -/
structure TomlProject where
  name : Option String
  version : Option String
  repository : Option String
deriving DecidableEq, Repr

/-- What the filesystem shows at one package directory at call time: whether
`pyproject.toml` and `.tracking` exist, and what `toml.load` yields for the
descriptor (`Except.error` models a parse exception; the inner `Option`
models a missing `project` table, which `.get('project', {})` defaults). -/
structure DirInfo where
  tomlExists : Bool
  trackingExists : Bool
  tomlProject : Except String (Option TomlProject)
deriving Repr

/-- The dict `{"id": ..., "version": ..., "url": ...}` built by
`read_cnr_info`. -/
structure CnrInfo where
  id : String
  version : String
  url : Option String
deriving DecidableEq, Repr

/-- Python `str.lower()`, on the character list of the string. -/
def pyLower (s : String) : String :=
  String.mk (s.data.map Char.toLower)

/-- The whitespace characters Python `str.strip()` removes (the ones that
can occur in a TOML `name` value). -/
def isSpaceChar (c : Char) : Bool :=
  c = ' ' || c = '\t' || c = '\n' || c = '\r'

def dropLeadingSpace (cs : List Char) : List Char :=
  match cs with
  | [] => []
  | c :: rest => if isSpaceChar c then dropLeadingSpace rest else c :: rest

/-- Python `str.strip()`: drop whitespace from both ends. -/
def pyStrip (s : String) : String :=
  String.mk ((dropLeadingSpace ((dropLeadingSpace s.data).reverse)).reverse)

/-- Python `s.split('.')` on a character list (always non-empty output). -/
def splitDot (cs : List Char) : List (List Char) :=
  match cs with
  | [] => [[]]
  | c :: rest =>
    if c = '.' then [] :: splitDot rest
    else
      match splitDot rest with
      | [] => [[c]]
      | p :: ps => (c :: p) :: ps

/-- Modelled from the spec: `manager_util.StrictVersion` lives in the
external collaborator `manager_util` (the VersionStringNormalizer), which
"canonicalizes a dotted version string to a fixed 3-component form"
(e.g. `2.5` → `2.5.0`); a missing (`None`) or malformed version raises. -/
def strictVersion (version : Option String) : Except String String :=
  match version with
  | none => Except.error "TypeError"
  | some s =>
    let parts := splitDot s.data
    if parts.isEmpty || parts.length > 3 ||
        parts.any (fun p => p.isEmpty || !(p.all Char.isDigit)) then
      Except.error "invalid version"
    else
      Except.ok (String.mk (List.intercalate ['.']
        (parts ++ List.replicate (3 - parts.length) ['0'])))

/-- `read_cnr_info(fullpath)`: consult `cnr_info_cache`; on a miss require
both `pyproject.toml` and `.tracking` to exist, parse the descriptor, trim
and lowercase the name (`.get('name')` returning `None` raises on
`.strip()`), normalize the version, and store into the cache only on the
success branch; every exception is absorbed into `None`. The third component
records whether the descriptor file was opened and read on this call. -/
def read_cnr_info (fs : String → DirInfo) (cache : List (String × CnrInfo))
    (fullpath : String) : Option CnrInfo × List (String × CnrInfo) × Bool :=
  match lookupAssoc cache fullpath with
  | some r => (some r, cache, false)
  | none =>
    let dir := fs fullpath
    if !dir.tomlExists || !dir.trackingExists then (none, cache, false)
    else
      match dir.tomlProject with
      | Except.error _ => (none, cache, true)
      | Except.ok dataProject =>
        let project := dataProject.getD
          { name := none, version := none, repository := none }
        match project.name with
        | none => (none, cache, true)
        | some rawName =>
          let name := pyLower (pyStrip rawName)
          match strictVersion project.version with
          | Except.error _ => (none, cache, true)
          | Except.ok version =>
            let repository := project.repository
            if name ≠ "" ∧ version ≠ "" then
              let result : CnrInfo :=
                { id := name, version := version, url := repository }
              (some result, insertAssoc cache fullpath result, true)
            else (none, cache, true)

/-! Shared lemmas. -/

theorem lookupAssoc_insertAssoc {α : Type} (m : List (String × α)) (k : String)
    (v : α) : lookupAssoc (insertAssoc m k v) k = some v := by
  simp [insertAssoc, lookupAssoc]

theorem range'_rest_pages (N : Nat) :
    (if N > 1 then List.range' 2 (N - 1) else []) = List.range' 2 (N - 1) := by
  by_cases h : N > 1
  · simp [h]
  · have h0 : N - 1 = 0 := by omega
    simp [h, h0]

theorem fetch_all_first_ok (fetchPage : Nat → Option PageJson) (N : Nat)
    (fp : PageJson) (ns1 : List Node)
    (h1 : fetchPage 1 = some fp) (htp : fp.totalPages = some N)
    (hns : fp.nodes = some ns1) :
    fetch_all fetchPage =
      (Except.ok { nodes := (ns1 ++ ((List.range' 2 (N - 1)).map fun page =>
          pageContrib (fetchPage page)).flatten).map normalizeNode },
       1 :: List.range' 2 (N - 1)) := by
  have htr : pageTruthy fp = true := by
    simp [pageTruthy, htp]
  unfold fetch_all
  rw [h1]
  simp [htr, htp, hns, range'_rest_pages]

theorem fetch_all_ok_inv (fetchPage : Nat → Option PageJson)
    (merged : FetchResult) (h : (fetch_all fetchPage).1 = Except.ok merged) :
    ∃ pre : List Node, merged.nodes = pre.map normalizeNode := by
  unfold fetch_all at h
  split at h
  · simp at h
  · split at h
    · simp at h
    · split at h
      · simp at h
      · split at h
        · simp at h
        · simp only [Except.ok.injEq] at h
          exact ⟨_, by rw [← h]⟩

theorem one_mem_fetch_all_log (fetchPage : Nat → Option PageJson) :
    1 ∈ (fetch_all fetchPage).2 := by
  unfold fetch_all
  split
  · simp
  · split
    · simp
    · split
      · simp
      · split
        · simp
        · simp

/-! Claim theorems. -/

/-- C1: when page 1 succeeds and reports `N` total pages, `fetch_all` returns
(without raising) the merged sequence consisting of page 1's entries followed
by the entries of pages 2..N taken in ascending page-number order, where a
failed page contributes zero entries. -/
theorem fetch_all_merges_ascending (fetchPage : Nat → Option PageJson)
    (N : Nat) (fp : PageJson) (ns1 : List Node)
    (h1 : fetchPage 1 = some fp) (htp : fp.totalPages = some N)
    (hns : fp.nodes = some ns1) :
    (fetch_all fetchPage).1 =
      Except.ok { nodes := (ns1 ++ ((List.range' 2 (N - 1)).map fun page =>
        pageContrib (fetchPage page)).flatten).map normalizeNode } ∧
    ∀ page, fetchPage page = none → pageContrib (fetchPage page) = [] := by
  refine ⟨?_, ?_⟩
  · rw [fetch_all_first_ok fetchPage N fp ns1 h1 htp hns]
  · intro page hp
    rw [hp]
    rfl

def nodeA : Node := { name := "a", latest_version := none }

def nodeB : Node := { name := "b", latest_version := some { version := "1.0.0" } }

def nodeC : Node := { name := "c", latest_version := none }

/-- A simulated registry with 4 total pages where pages 2 and 4 fail. -/
def fetchPageW : Nat → Option PageJson := fun page =>
  if page = 1 then some { totalPages := some 4, nodes := some [nodeA, nodeB] }
  else if page = 3 then some { totalPages := some 4, nodes := some [nodeC] }
  else none

/-- Witness for C1 at the simulated registry: the merged sequence holds the
entries of pages 1 and 3 in ascending order, the failed pages 2 and 4
contribute nothing, and no error is raised. -/
theorem fetch_all_merges_ascending_witness :
    fetchPageW 2 = none ∧ fetchPageW 4 = none ∧
    (fetch_all fetchPageW).1 = Except.ok { nodes :=
      [{ name := "a", latest_version := some { version := "nightly" } },
       nodeB,
       { name := "c", latest_version := some { version := "nightly" } }] } := by
  have h := fetch_all_merges_ascending fetchPageW 4
    { totalPages := some 4, nodes := some [nodeA, nodeB] } [nodeA, nodeB]
    rfl rfl rfl
  refine ⟨rfl, rfl, ?_⟩
  rw [h.1]
  rfl

/-- C3: if fetching page 1 yields the failure sentinel, `fetch_all` raises
the explicit first-page error and its request log is exactly `[1]`: no page
in 2..totalPages is ever requested. -/
theorem fetch_all_first_page_failure (fetchPage : Nat → Option PageJson)
    (h : fetchPage 1 = none) :
    fetch_all fetchPage = (Except.error "Failed to fetch first page", [1]) := by
  unfold fetch_all
  rw [h]

def fetchPageFail : Nat → Option PageJson := fun _ => none

/-- Witness for C3: with every page failing, `fetch_all` raises the explicit
error after requesting only page 1. -/
theorem fetch_all_first_page_failure_witness :
    fetch_all fetchPageFail = (Except.error "Failed to fetch first page", [1]) :=
  fetch_all_first_page_failure fetchPageFail rfl

/-- C5: every entry of a successfully merged collection has a non-absent
latest-version field; the normalization assigns exactly
`\x7bversion: "nightly"\x7d` to an entry that lacked one and leaves an entry
that had one unchanged, and the merged collection is exactly the image of the
pre-normalization entries under that normalization. -/
theorem fetch_all_normalizes_latest_version (fetchPage : Nat → Option PageJson)
    (merged : FetchResult) (h : (fetch_all fetchPage).1 = Except.ok merged) :
    (∀ node ∈ merged.nodes, node.latest_version.isSome = true) ∧
    (∀ node : Node, node.latest_version = none →
      normalizeNode node =
        { node with latest_version := some { version := "nightly" } }) ∧
    (∀ node : Node, node.latest_version.isSome = true →
      normalizeNode node = node) ∧
    (∃ pre : List Node, merged.nodes = pre.map normalizeNode) := by
  obtain ⟨pre, hpre⟩ := fetch_all_ok_inv fetchPage merged h
  refine ⟨?_, ?_, ?_, ⟨pre, hpre⟩⟩
  · intro node hn
    rw [hpre] at hn
    obtain ⟨m, _, rfl⟩ := List.mem_map.mp hn
    cases hlv : m.latest_version <;> simp [normalizeNode, hlv]
  · intro node hlv
    simp [normalizeNode, hlv]
  · intro node hlv
    cases hv : node.latest_version with
    | none => rw [hv] at hlv; simp at hlv
    | some v => simp [normalizeNode, hv]

/-- Witness for C5 at the simulated registry of `fetchPageW`: the first
merged entry — which lacked a latest-version field on its page — carries one
after aggregation. -/
theorem fetch_all_normalizes_latest_version_witness :
    ({ name := "a", latest_version := some { version := "nightly" } } :
      Node).latest_version.isSome = true := by
  have h := fetch_all_normalizes_latest_version fetchPageW
    { nodes :=
      [{ name := "a", latest_version := some { version := "nightly" } },
       nodeB,
       { name := "c", latest_version := some { version := "nightly" } }] } rfl
  exact h.1 { name := "a", latest_version := some { version := "nightly" } }
    (by decide)

/-- C2: `cache_mode=False` performs the live fetch regardless of the cache
state `st` (the request log is `fetch_all`'s and contains page 1), stores the
fetched object in both tiers on success, and a subsequent `cache_mode=True`
call then returns the identical data with an empty request log (no network
call), whatever oracle it is given. -/
theorem get_cnr_data_nocache_always_fetches_and_populates
    (fetchPage : Nat → Option PageJson) (st : CacheSt) (dw : Bool)
    (json_obj : FetchResult)
    (h : (fetch_all fetchPage).1 = Except.ok json_obj) :
    get_cnr_data fetchPage st false dw =
      (CnrResult.nodesList json_obj.nodes,
       { memory_cache := insertAssoc st.memory_cache nodesUri json_obj,
         disk_cache := insertAssoc st.disk_cache nodesUri json_obj },
       (fetch_all fetchPage).2) ∧
    1 ∈ (fetch_all fetchPage).2 ∧
    ∀ (fetchPage' : Nat → Option PageJson) (dw' : Bool),
      get_cnr_data fetchPage'
        { memory_cache := insertAssoc st.memory_cache nodesUri json_obj,
          disk_cache := insertAssoc st.disk_cache nodesUri json_obj } true dw' =
      (CnrResult.nodesList json_obj.nodes,
       { memory_cache := insertAssoc st.memory_cache nodesUri json_obj,
         disk_cache := insertAssoc st.disk_cache nodesUri json_obj }, []) := by
  have hfa : fetch_all fetchPage = (Except.ok json_obj, (fetch_all fetchPage).2) :=
    Prod.ext_iff.mpr ⟨h, rfl⟩
  refine ⟨?_, one_mem_fetch_all_log fetchPage, ?_⟩
  · show liveFetch fetchPage st nodesUri = _
    unfold liveFetch
    rw [hfa]
  · intro fetchPage' dw'
    simp [get_cnr_data, lookupAssoc_insertAssoc]

/-- A registry with a single page. -/
def fetchPageOne : Nat → Option PageJson := fun page =>
  if page = 1 then some { totalPages := some 1, nodes := some [nodeB] } else none

/-- Witness for C2: starting from empty caches, a `cache_mode=False` call
fetches page 1, fills both tiers, and a following `cache_mode=True` call
(here given an oracle that always fails) returns the same data without
requesting any page. -/
theorem get_cnr_data_nocache_always_fetches_and_populates_witness :
    get_cnr_data fetchPageOne { memory_cache := [], disk_cache := [] } false true =
      (CnrResult.nodesList [nodeB],
       { memory_cache := [(nodesUri, { nodes := [nodeB] })],
         disk_cache := [(nodesUri, { nodes := [nodeB] })] }, [1]) ∧
    get_cnr_data fetchPageFail
      { memory_cache := [(nodesUri, { nodes := [nodeB] })],
        disk_cache := [(nodesUri, { nodes := [nodeB] })] } true true =
      (CnrResult.nodesList [nodeB],
       { memory_cache := [(nodesUri, { nodes := [nodeB] })],
         disk_cache := [(nodesUri, { nodes := [nodeB] })] }, []) := by
  have h := get_cnr_data_nocache_always_fetches_and_populates fetchPageOne
    { memory_cache := [], disk_cache := [] } true { nodes := [nodeB] } rfl
  exact ⟨h.1, h.2.2 fetchPageFail true⟩

/-- C6: with `cache_mode=True`, `dont_wait=True` and both tiers missing the
listing key, `get_cnr_data` returns the empty result, leaves the caches
untouched and requests no page. -/
theorem get_cnr_data_cache_miss_dont_wait (fetchPage : Nat → Option PageJson)
    (st : CacheSt)
    (hm : lookupAssoc st.memory_cache nodesUri = none)
    (hd : lookupAssoc st.disk_cache nodesUri = none) :
    get_cnr_data fetchPage st true true = (CnrResult.emptyDict, st, []) := by
  simp [get_cnr_data, hm, hd]

/-- Witness for C6 with both caches empty. -/
theorem get_cnr_data_cache_miss_dont_wait_witness :
    get_cnr_data fetchPageOne { memory_cache := [], disk_cache := [] } true true =
      (CnrResult.emptyDict, { memory_cache := [], disk_cache := [] }, []) :=
  get_cnr_data_cache_miss_dont_wait fetchPageOne
    { memory_cache := [], disk_cache := [] } rfl rfl

/-- C7: when `get_cnr_data` reaches the live fetch and `fetch_all` raises
(any exception, including the first-page error), it returns the empty result
to its caller with the caches untouched, on both fall-through paths
(`cache_mode=False`, and `cache_mode=True` with two misses and
`dont_wait=False`); the failure never propagates. -/
theorem get_cnr_data_fetch_failure_returns_empty
    (fetchPage : Nat → Option PageJson) (st : CacheSt) (e : String)
    (h : (fetch_all fetchPage).1 = Except.error e) :
    (∀ dw, get_cnr_data fetchPage st false dw =
      (CnrResult.emptyDict, st, (fetch_all fetchPage).2)) ∧
    (lookupAssoc st.memory_cache nodesUri = none →
      lookupAssoc st.disk_cache nodesUri = none →
      get_cnr_data fetchPage st true false =
        (CnrResult.emptyDict, st, (fetch_all fetchPage).2)) := by
  have hfa : fetch_all fetchPage = (Except.error e, (fetch_all fetchPage).2) :=
    Prod.ext_iff.mpr ⟨h, rfl⟩
  constructor
  · intro dw
    show liveFetch fetchPage st nodesUri = _
    unfold liveFetch
    rw [hfa]
  · intro hm hd
    have hlf : get_cnr_data fetchPage st true false =
        liveFetch fetchPage st nodesUri := by
      simp [get_cnr_data, hm, hd]
    rw [hlf]
    unfold liveFetch
    rw [hfa]

/-- Witness for C7: an oracle that fails on every page makes the first-page
fetch raise, and both fall-through paths return the empty result. -/
theorem get_cnr_data_fetch_failure_returns_empty_witness :
    get_cnr_data fetchPageFail { memory_cache := [], disk_cache := [] } false true =
      (CnrResult.emptyDict, { memory_cache := [], disk_cache := [] }, [1]) ∧
    get_cnr_data fetchPageFail { memory_cache := [], disk_cache := [] } true false =
      (CnrResult.emptyDict, { memory_cache := [], disk_cache := [] }, [1]) := by
  have h := get_cnr_data_fetch_failure_returns_empty fetchPageFail
    { memory_cache := [], disk_cache := [] } "Failed to fetch first page" rfl
  exact ⟨h.1 true, h.2 rfl rfl⟩

/-- C10: the result shape of `get_cnr_data` is inconsistent across branches:
the degraded no-cache `dont_wait` branch and the fetch-failure branch return
the empty dict `\x7b\x7d`, every success branch (memory hit, disk hit,
successful fetch) returns the list stored under the `nodes` key, and the
empty-dict result is never such a list. -/
theorem get_cnr_data_result_shape_branches (fetchPage : Nat → Option PageJson)
    (st : CacheSt) :
    (lookupAssoc st.memory_cache nodesUri = none →
      lookupAssoc st.disk_cache nodesUri = none →
      (get_cnr_data fetchPage st true true).1 = CnrResult.emptyDict) ∧
    (∀ e dw, (fetch_all fetchPage).1 = Except.error e →
      (get_cnr_data fetchPage st false dw).1 = CnrResult.emptyDict) ∧
    (∀ data dw, lookupAssoc st.memory_cache nodesUri = some data →
      (get_cnr_data fetchPage st true dw).1 = CnrResult.nodesList data.nodes) ∧
    (∀ data dw, lookupAssoc st.memory_cache nodesUri = none →
      lookupAssoc st.disk_cache nodesUri = some data →
      (get_cnr_data fetchPage st true dw).1 = CnrResult.nodesList data.nodes) ∧
    (∀ json_obj dw, (fetch_all fetchPage).1 = Except.ok json_obj →
      (get_cnr_data fetchPage st false dw).1 =
        CnrResult.nodesList json_obj.nodes) ∧
    (∀ ns : List Node, CnrResult.emptyDict ≠ CnrResult.nodesList ns) := by
  refine ⟨?_, ?_, ?_, ?_, ?_, ?_⟩
  · intro hm hd
    simp [get_cnr_data, hm, hd]
  · intro e dw h
    have hfa : fetch_all fetchPage = (Except.error e, (fetch_all fetchPage).2) :=
      Prod.ext_iff.mpr ⟨h, rfl⟩
    show (liveFetch fetchPage st nodesUri).1 = _
    unfold liveFetch
    rw [hfa]
  · intro data dw hm
    simp [get_cnr_data, hm]
  · intro data dw hm hd
    simp [get_cnr_data, hm, hd]
  · intro json_obj dw h
    have hfa : fetch_all fetchPage = (Except.ok json_obj, (fetch_all fetchPage).2) :=
      Prod.ext_iff.mpr ⟨h, rfl⟩
    show (liveFetch fetchPage st nodesUri).1 = _
    unfold liveFetch
    rw [hfa]
  · intro ns hne
    cases hne

/-- Witness for C10: the degraded branch and the failure branch both yield
the empty dict, a memory hit yields the stored list, and the two shapes
differ. -/
theorem get_cnr_data_result_shape_branches_witness :
    (get_cnr_data fetchPageFail { memory_cache := [], disk_cache := [] }
      true true).1 = CnrResult.emptyDict ∧
    (get_cnr_data fetchPageFail { memory_cache := [], disk_cache := [] }
      false true).1 = CnrResult.emptyDict ∧
    (get_cnr_data fetchPageOne
      { memory_cache := [(nodesUri, { nodes := [nodeB] })], disk_cache := [] }
      true true).1 = CnrResult.nodesList [nodeB] ∧
    CnrResult.emptyDict ≠ CnrResult.nodesList [] := by
  have h1 := get_cnr_data_result_shape_branches fetchPageFail
    { memory_cache := [], disk_cache := [] }
  have h2 := get_cnr_data_result_shape_branches fetchPageOne
    { memory_cache := [(nodesUri, { nodes := [nodeB] })], disk_cache := [] }
  exact ⟨h1.1 rfl rfl, h1.2.1 "Failed to fetch first page" true rfl,
    h2.2.2.1 { nodes := [nodeB] } true rfl, h1.2.2.2.2.2 []⟩

/-- C8: `map_node_version` fails with a hard error exactly when `id` or
`version` is absent from the payload, and for every payload carrying both it
returns the record whose absent optional fields take the documented defaults
(`changelog` `""`, `dependencies` `[]`, `deprecated` `false`,
`download_url` `""`) and whose present fields are copied through. -/
theorem map_node_version_required_and_defaults (a : ApiNodeVersion) :
    ((∃ e, map_node_version a = Except.error e) ↔
      a.id = none ∨ a.version = none) ∧
    (∀ i v, a.id = some i → a.version = some v →
      map_node_version a = Except.ok
        { changelog := a.changelog.getD "",
          dependencies := a.dependencies.getD [],
          deprecated := a.deprecated.getD false,
          id := i, version := v,
          download_url := a.downloadUrl.getD "" }) := by
  constructor
  · constructor
    · rintro ⟨e, he⟩
      by_contra hc
      push_neg at hc
      obtain ⟨hi, hv⟩ := hc
      obtain ⟨i, hi'⟩ := Option.ne_none_iff_exists'.mp hi
      obtain ⟨v, hv'⟩ := Option.ne_none_iff_exists'.mp hv
      simp [map_node_version, hi', hv'] at he
    · rintro (hi | hv)
      · exact ⟨"KeyError: id", by simp [map_node_version, hi]⟩
      · cases hi : a.id with
        | none => exact ⟨"KeyError: id", by simp [map_node_version, hi]⟩
        | some i =>
          exact ⟨"KeyError: version", by simp [map_node_version, hi, hv]⟩
  · intro i v hi hv
    simp [map_node_version, hi, hv]

/-- Witness for C8: a payload with only the required fields maps to the
all-defaults record, and a payload missing `id` is a hard error. -/
theorem map_node_version_required_and_defaults_witness :
    map_node_version
      { changelog := none, dependencies := none, deprecated := none,
        id := some "comfyui-foo", version := some "1.2.3",
        downloadUrl := none } =
      Except.ok
        { changelog := "", dependencies := [], deprecated := false,
          id := "comfyui-foo", version := "1.2.3", download_url := "" } ∧
    ∃ e, map_node_version
      { changelog := some "fixes", dependencies := none, deprecated := none,
        id := none, version := some "1.2.3", downloadUrl := none } =
      Except.error e := by
  constructor
  · exact (map_node_version_required_and_defaults _).2 "comfyui-foo" "1.2.3"
      rfl rfl
  · exact (map_node_version_required_and_defaults _).1.mpr (Or.inl rfl)

def httpConnError : String → HttpResp ApiNodeVersion := fun _ =>
  HttpResp.exn "ConnectionError"

def httpConnErrorV : String → HttpResp VersionsPayload := fun _ =>
  HttpResp.exn "ConnectionError"

/-- Counterexample to C4: on an empty memo cache, a transport exception
raised by `requests.get` is not caught by `install_node` or
`all_versions_of_node` — it escapes to the caller (modelled as
`Except.error`) instead of becoming the absent sentinel. -/
theorem point_lookup_transport_exception_escapes :
    install_node httpConnError [] "comfyui-foo" none =
      Except.error "ConnectionError" ∧
    all_versions_of_node httpConnErrorV [] "comfyui-foo" =
      Except.error "ConnectionError" :=
  ⟨rfl, rfl⟩

/-- C4 amended: on a cache miss, any non-200 status makes both point lookups
return the absent sentinel without raising; but a transport exception from
`requests.get`, and for `install_node` a parse failure of the 200 body, are
not caught and propagate to the caller. -/
theorem point_lookup_non200_absent_exceptions_propagate
    (http httpE httpP : String → HttpResp ApiNodeVersion)
    (httpV httpVE : String → HttpResp VersionsPayload)
    (mem : List (String × NodeVersion))
    (memV : List (String × VersionsPayload))
    (node_id : String) (version : Option String) (status statusV : Nat)
    (body : Except String ApiNodeVersion)
    (bodyV : Except String VersionsPayload) (msg msgV pmsg : String)
    (hm : lookupAssoc mem
      ("install_" ++ node_id ++ "_" ++ pyOrLatest version) = none)
    (hmV : lookupAssoc memV ("versions_" ++ node_id) = none)
    (hresp : http (installUrl node_id version) = HttpResp.resp status body)
    (hs : status ≠ 200)
    (hrespV : httpV (versionsUrl node_id) = HttpResp.resp statusV bodyV)
    (hsV : statusV ≠ 200)
    (hexn : httpE (installUrl node_id version) = HttpResp.exn msg)
    (hexnV : httpVE (versionsUrl node_id) = HttpResp.exn msgV)
    (hparse : httpP (installUrl node_id version) =
      HttpResp.resp 200 (Except.error pmsg)) :
    install_node http mem node_id version = Except.ok (none, mem) ∧
    all_versions_of_node httpV memV node_id = Except.ok (none, memV) ∧
    install_node httpE mem node_id version = Except.error msg ∧
    all_versions_of_node httpVE memV node_id = Except.error msgV ∧
    install_node httpP mem node_id version = Except.error pmsg := by
  refine ⟨?_, ?_, ?_, ?_, ?_⟩
  · simp [install_node, hm, hresp, hs]
  · simp [all_versions_of_node, hmV, hrespV, hsV]
  · simp [install_node, hm, hexn]
  · simp [all_versions_of_node, hmV, hexnV]
  · simp [install_node, hm, hparse]

def http404 : String → HttpResp ApiNodeVersion := fun _ =>
  HttpResp.resp 404 (Except.error "HTTPError")

def http404V : String → HttpResp VersionsPayload := fun _ =>
  HttpResp.resp 404 (Except.error "HTTPError")

def httpParse200 : String → HttpResp ApiNodeVersion := fun _ =>
  HttpResp.resp 200 (Except.error "JSONDecodeError")

/-- Witness for the amended C4 on concrete oracles: 404 yields the absent
sentinel, while a transport or parse failure escapes. -/
theorem point_lookup_non200_absent_exceptions_propagate_witness :
    install_node http404 [] "comfyui-foo" none = Except.ok (none, []) ∧
    all_versions_of_node http404V [] "comfyui-foo" = Except.ok (none, []) ∧
    install_node httpConnError [] "comfyui-bar" none =
      Except.error "ConnectionError" ∧
    all_versions_of_node httpConnErrorV [] "comfyui-bar" =
      Except.error "ConnectionError" ∧
    install_node httpParse200 [] "comfyui-foo" none =
      Except.error "JSONDecodeError" := by
  have h := point_lookup_non200_absent_exceptions_propagate
    http404 httpConnError httpParse200 http404V httpConnErrorV
    [] [] "comfyui-foo" none 404 404
    (Except.error "HTTPError") (Except.error "HTTPError")
    "ConnectionError" "ConnectionError" "JSONDecodeError"
    rfl rfl rfl (by decide) rfl (by decide) rfl rfl rfl
  have h2 := point_lookup_non200_absent_exceptions_propagate
    http404 httpConnError httpParse200 http404V httpConnErrorV
    [] [] "comfyui-bar" none 404 404
    (Except.error "HTTPError") (Except.error "HTTPError")
    "ConnectionError" "ConnectionError" "JSONDecodeError"
    rfl rfl rfl (by decide) rfl (by decide) rfl rfl rfl
  exact ⟨h.1, h.2.1, h2.2.2.1, h2.2.2.2.1, h.2.2.2.2⟩

/-- A package directory whose `.tracking` marker is missing. -/
def dirNoTracking : DirInfo :=
  { tomlExists := true, trackingExists := false,
    tomlProject := Except.ok (some
      { name := some "Foo", version := some "2.5", repository := none }) }

/-- The same directory after the `.tracking` marker appears. -/
def dirTracked : DirInfo :=
  { tomlExists := true, trackingExists := true,
    tomlProject := Except.ok (some
      { name := some "Foo", version := some "2.5", repository := none }) }

def fsBefore : String → DirInfo := fun _ => dirNoTracking

def fsAfter : String → DirInfo := fun _ => dirTracked

/-- Counterexample to C9: a first call whose outcome is the absent result is
not memoized — the cache stays empty, and a second call for the same path
re-reads the descriptor and can return a different result. -/
theorem read_cnr_info_failure_not_memoized :
    (read_cnr_info fsBefore [] "/custom_nodes/foo").1 = none ∧
    (read_cnr_info fsBefore [] "/custom_nodes/foo").2.1 = [] ∧
    (read_cnr_info fsAfter (read_cnr_info fsBefore [] "/custom_nodes/foo").2.1
        "/custom_nodes/foo").2.2 = true ∧
    (read_cnr_info fsAfter (read_cnr_info fsBefore [] "/custom_nodes/foo").2.1
        "/custom_nodes/foo").1 =
      some { id := "foo", version := "2.5.0", url := none } := by
  refine ⟨rfl, rfl, rfl, ?_⟩
  rfl

theorem read_cnr_info_cache_hit (fs : String → DirInfo)
    (cache : List (String × CnrInfo)) (fullpath : String) (r : CnrInfo)
    (h : lookupAssoc cache fullpath = some r) :
    read_cnr_info fs cache fullpath = (some r, cache, false) := by
  unfold read_cnr_info
  rw [h]

theorem read_cnr_info_cases (fs : String → DirInfo)
    (cache : List (String × CnrInfo)) (fullpath : String) :
    (∃ r, (read_cnr_info fs cache fullpath).1 = some r ∧
      lookupAssoc (read_cnr_info fs cache fullpath).2.1 fullpath = some r) ∨
    ((read_cnr_info fs cache fullpath).1 = none ∧
      (read_cnr_info fs cache fullpath).2.1 = cache) := by
  unfold read_cnr_info
  split
  · rename_i r hr
    exact Or.inl ⟨r, rfl, hr⟩
  · try dsimp only
    split
    · exact Or.inr ⟨rfl, rfl⟩
    · split
      · exact Or.inr ⟨rfl, rfl⟩
      · try dsimp only
        split
        · exact Or.inr ⟨rfl, rfl⟩
        · try dsimp only
          split
          · exact Or.inr ⟨rfl, rfl⟩
          · try dsimp only
            split
            · exact Or.inl ⟨_, rfl, lookupAssoc_insertAssoc _ _ _⟩
            · exact Or.inr ⟨rfl, rfl⟩

/-- C9 amended: `read_cnr_info` is memoized by path only on success — once a
call returns a present result it is cached and every subsequent call for
that path returns it without reading the descriptor again, whatever the
filesystem now shows; a call yielding the absent result leaves the cache
unchanged (so nothing is memoized for that path). -/
theorem read_cnr_info_memoizes_success_only (fs fs' : String → DirInfo)
    (cache : List (String × CnrInfo)) (fullpath : String) :
    (∀ r : CnrInfo, (read_cnr_info fs cache fullpath).1 = some r →
      read_cnr_info fs' (read_cnr_info fs cache fullpath).2.1 fullpath =
        (some r, (read_cnr_info fs cache fullpath).2.1, false)) ∧
    ((read_cnr_info fs cache fullpath).1 = none →
      (read_cnr_info fs cache fullpath).2.1 = cache) := by
  rcases read_cnr_info_cases fs cache fullpath with ⟨r0, hr0, hl⟩ | ⟨hn, hc⟩
  · constructor
    · intro r hr
      rw [hr0] at hr
      cases hr
      exact read_cnr_info_cache_hit fs' _ fullpath r0 hl
    · intro hnone
      rw [hr0] at hnone
      cases hnone
  · constructor
    · intro r hr
      rw [hn] at hr
      cases hr
    · intro _
      exact hc

/-- Witness for the amended C9: after a successful first read, a second call
— here against a filesystem where the files have disappeared again — still
returns the cached result without re-reading. -/
theorem read_cnr_info_memoizes_success_only_witness :
    read_cnr_info fsBefore
      (read_cnr_info fsAfter [] "/custom_nodes/foo").2.1 "/custom_nodes/foo" =
      (some { id := "foo", version := "2.5.0", url := none },
       (read_cnr_info fsAfter [] "/custom_nodes/foo").2.1, false) :=
  (read_cnr_info_memoizes_success_only fsAfter fsBefore [] "/custom_nodes/foo").1
    { id := "foo", version := "2.5.0", url := none } (by decide)

end CnrUtils
